import Mathlib

/-!
Verification development for the auth-kit server (`src/server.ts`).

The embedding models the token codec (`createSessionToken`, `createRefreshToken`,
`verifyToken`), the auth router (`createAuthRouter`) and the session-resolving
middleware (`withAuth`) as executable Lean functions.  JWTs are modelled
symbolically: a token is either a payload signed under a secret, or an opaque
malformed string; `jwtVerify` succeeds exactly when the secret matches and the
token is unexpired (plus an audience check when the call site passes one, as the
web-auth-code redemption does).  `crypto.randomUUID` is modelled by an explicit
counter threaded through the computation, and the pluggable hooks are modelled
as oracles plus an event log recording every lifecycle-hook invocation and the
invocation of the wrapped handler.
-/

/-- JavaScript string truthiness for optional string claims: `undefined` and the
empty string are falsy. -/
def truthy : Option String → Bool
  | none => false
  | some s => s ≠ ""

/-- JWT claims set, as read by `verifyToken` (interface `TokenPayload` plus the
claims the code writes: `email`, `aud`, `exp`). -/
structure TokenPayload where
  userId : Option String
  sessionId : Option String
  email : Option String
  aud : Option String
  exp : Nat
deriving DecidableEq

/-- A token value: a claims set signed under a secret (what `SignJWT ... .sign`
produces), or an arbitrary string that is not a well-signed token. -/
inductive Token where
  | signed (payload : TokenPayload) (secret : String)
  | malformed (s : String)
deriving DecidableEq

/-- JavaScript truthiness of a token-carrying string: only the empty string is
falsy. -/
def tokenTruthy : Token → Bool
  | Token.signed _ _ => true
  | Token.malformed s => s ≠ ""

/-- `jose`'s `jwtVerify(token, secret)` without an audience option: checks the
signature (the signing secret matches) and expiry (`exp` in the future), and
returns the claims; any failure is an exception, modelled as `none`. -/
def jwtVerify (t : Token) (secret : String) (now : Nat) : Option TokenPayload :=
  match t with
  | Token.signed p s => if s = secret ∧ now < p.exp then some p else none
  | Token.malformed _ => none

/-- `jwtVerify(token, secret, { audience })`: additionally requires the `aud`
claim to equal the expected audience. -/
def jwtVerifyAud (t : Token) (secret : String) (audience : String) (now : Nat) :
    Option TokenPayload :=
  match jwtVerify t secret now with
  | some p => if p.aud = some audience then some p else none
  | none => none

/-- Server-side environment: the signing secret plus the ambient facts the code
reads from its runtime (current time, `jose`'s duration-string parser, and the
random 6-digit verification code source). -/
structure Env where
  authSecret : String
  now : Nat
  parseDuration : String → Nat
  randomCode : String

/-- The deterministic model of `crypto.randomUUID`: the `n`-th fresh UUID. -/
def uuidStr (n : Nat) : String := "uuid-" ++ toString n

/-- `createSessionToken(userId, secret, expiresIn, email?)` (server.ts:14-36):
mints a SESSION-audience token with a fresh session id, embedding the email
only when it is truthy.  Consumes one UUID from the generator. -/
def createSessionToken (userId : String) (env : Env) (expiresIn : String)
    (email : Option String) (g : Nat) : Token × Nat :=
  let payload : TokenPayload :=
    { userId := some userId
      sessionId := some (uuidStr g)
      email := if truthy email then email else none
      aud := some "SESSION"
      exp := env.now + env.parseDuration expiresIn }
  (Token.signed payload env.authSecret, g + 1)

/-- `createRefreshToken(userId, secret, expiresIn, isTransient)`
(server.ts:38-49): mints a REFRESH-audience token carrying only the subject id;
transient tokens get a 1h lifetime regardless of `expiresIn`. -/
def createRefreshToken (userId : String) (env : Env) (expiresIn : String)
    (isTransient : Bool) : Token :=
  let payload : TokenPayload :=
    { userId := some userId
      sessionId := none
      email := none
      aud := some "REFRESH"
      exp := env.now + env.parseDuration (if isTransient then "1h" else expiresIn) }
  Token.signed payload env.authSecret

/-- `verifyToken(token, secret)` (server.ts:51-75): signature/expiry check via
`jwtVerify` (no expected audience), then shape checks — REFRESH-audience
payloads need a truthy `userId`, all others need truthy `userId` and
`sessionId`. -/
def verifyToken (t : Token) (secret : String) (now : Nat) : Option TokenPayload :=
  match jwtVerify t secret now with
  | none => none
  | some p =>
    if p.aud = some "REFRESH" then
      if truthy p.userId then some p else none
    else
      if truthy p.userId ∧ truthy p.sessionId then some p else none

/-- A query-string value: an ordinary string, or a string that is a token (the
`?code=` parameter carries web-auth tokens). -/
inductive QVal where
  | str (s : String)
  | tok (t : Token)
deriving DecidableEq

/-- JavaScript truthiness of a query value viewed as a string. -/
def qvalTruthy : QVal → Bool
  | QVal.str s => s ≠ ""
  | QVal.tok t => tokenTruthy t

/-- Read a query value as a token (a plain string is a malformed token). -/
def qvalToken : QVal → Token
  | QVal.str s => Token.malformed s
  | QVal.tok t => t

/-- A request URL: host, pathname, and the ordered search parameters. -/
structure Url where
  host : String
  path : String
  query : List (String × QVal)
deriving DecidableEq

/-- Splitting a character list at every occurrence of a separator character
(the structural model of JavaScript `split` with a one-character separator;
`String.splitOn` itself is defined by well-founded recursion and does not
evaluate inside the kernel). -/
def splitOnChar (sep : Char) : List Char → List (List Char)
  | [] => [[]]
  | c :: cs =>
    let r := splitOnChar sep cs
    if c = sep then [] :: r
    else
      match r with
      | [] => [[c]]
      | h :: t => (c :: h) :: t

/-- `s.startsWith p`, computed on the character lists. -/
def strStartsWith (s p : String) : Bool := p.data.isPrefixOf s.data

/-- `url.pathname.split("/").filter(Boolean)`. -/
def pathSegs (p : String) : List String :=
  ((splitOnChar '/' p.data).map (fun cs => String.mk cs)).filter (fun s => s ≠ "")

/-- The `Authorization` header: a well-formed `Bearer` credential or any other
string (which fails the `startsWith("Bearer ")` test). -/
inductive AuthHeader where
  | bearer (t : Token)
  | other (s : String)
deriving DecidableEq

/-- Fields of a parsed JSON request body (absent fields are `none`, matching
`undefined` after destructuring). -/
structure Fields where
  refreshTokenExpiresIn : Option String
  sessionTokenExpiresIn : Option String
  email : Option String
  code : Option String
deriving DecidableEq

/-- An empty JSON object body. -/
def Fields.empty : Fields :=
  { refreshTokenExpiresIn := none, sessionTokenExpiresIn := none
    email := none, code := none }

/-- A request body: a JSON object, or anything that makes `request.json()`
throw (missing body, non-JSON text, ...). -/
inductive ReqBody where
  | json (fields : Fields)
  | invalid
deriving DecidableEq

/-- An inbound request, with cookies and bearer tokens carried structurally. -/
structure Request where
  method : String
  url : Url
  authHeader : Option AuthHeader
  cookieHeader : Option (List (String × Token))
  body : ReqBody
deriving DecidableEq

def SESSION_TOKEN_COOKIE : String := "auth_session_token"
def REFRESH_TOKEN_COOKIE : String := "auth_refresh_token"

/-- `getCookie(request, name)` (server.ts:77-97): first cookie of that name in
the `Cookie` header, if any. -/
def getCookie (req : Request) (name : String) : Option Token :=
  match req.cookieHeader with
  | none => none
  | some jar => (jar.find? (fun c => c.1 = name)).map (fun c => c.2)

/-- The JS `if (cookieValue)` guard on a `getCookie` result: present and not
the empty string. -/
def cookieTok (o : Option Token) : Option Token :=
  match o with
  | some t => if tokenTruthy t then some t else none
  | none => none

/-- A `Set-Cookie` header, structurally. -/
structure SetCookie where
  name : String
  value : Option Token
  httpOnly : Bool
  secure : Bool
  sameSite : String
  path : String
  maxAge : Option Nat
  domain : Option String
deriving DecidableEq

/-- The cookie attributes every minted auth cookie is written with:
`HttpOnly; Secure; SameSite=Strict; Path=/`. -/
def authCookie (name : String) (value : Token) : SetCookie :=
  { name := name, value := some value, httpOnly := true, secure := true
    sameSite := "Strict", path := "/", maxAge := none, domain := none }

/-- The clearing cookie used by logout: empty value and `Max-Age=0`, same
attributes otherwise. -/
def clearCookie (name : String) : SetCookie :=
  { name := name, value := none, httpOnly := true, secure := true
    sameSite := "Strict", path := "/", maxAge := some 0, domain := none }

/-- Response bodies, one constructor per body shape the server produces, plus
`text` for plain-text responses (also usable by wrapped handlers). -/
inductive RespBody where
  | jsonError (msg : String)
  | text (s : String)
  | anonOk (userId : String) (sessionToken refreshToken : Token)
  | verifyOk (userId : String) (sessionToken refreshToken : Token)
  | requestCodeOk
  | refreshOk (sessionToken refreshToken : Token)
  | logoutOk
  | webCodeOk (code : Token) (expiresIn : Nat)
  | empty
deriving DecidableEq

/-- An outbound response: status, body, `Set-Cookie` headers (in append order)
and the `Location` header of a redirect, kept structurally. -/
structure Response where
  status : Nat
  body : RespBody
  setCookies : List SetCookie
  location : Option Url
deriving DecidableEq

/-- A plain response with no cookies and no redirect. -/
def mkResponse (status : Nat) (body : RespBody) : Response :=
  { status := status, body := body, setCookies := [], location := none }

/-- Observable hook/handler invocations, in order. -/
inductive Event where
  | newUser (userId : String)
  | authenticate (userId : String) (email : Option String)
  | emailVerified (userId : String) (email : Option String)
  | storeCode (email : Option String) (code : String)
  | sendCode (email : Option String) (code : String)
  | handlerCalled (userId sessionId : String)
deriving DecidableEq

/-- The hook object: pure oracles for the lookup hooks, presence flags for the
optional notification hooks (their effects are recorded as events). -/
structure Hooks where
  getUserIdByEmail : Option String → Option String
  verifyVerificationCode : Option String → Option String → Bool
  sendVerificationCode : Option String → String → Bool
  getUserEmail : Option (String → Option String)
  hasOnNewUser : Bool
  hasOnAuthenticate : Bool
  hasOnEmailVerified : Bool

/-- Result of running the router or the middleware: the response, the recorded
events, and the advanced UUID generator. -/
structure Out where
  response : Response
  events : List Event
  gen : Nat
deriving DecidableEq

/-- The type of a wrapped handler: request, `userId`, `sessionId`,
`sessionToken` to response. -/
def Handler : Type := Request → String → String → Token → Response

/-- The `anonymous` route (server.ts:136-192): parse the body (a throw becomes
the generic 500), mint a fresh subject id, fire `onNewUser` if provided, mint a
session token, a long-lived cookie refresh token and a transient refresh token,
return the pair and set both cookies. -/
def routeAnonymous (hooks : Hooks) (env : Env) (g : Nat) : ReqBody → Out
  | ReqBody.invalid =>
    { response := mkResponse 500 (RespBody.jsonError "Internal server error")
      events := [], gen := g }
  | ReqBody.json f =>
    let userId := uuidStr g
    let g := g + 1
    let evs := if hooks.hasOnNewUser then [Event.newUser userId] else []
    let stg := createSessionToken userId env
      (f.sessionTokenExpiresIn.getD "15m") none g
    let sessionToken := stg.1
    let g := stg.2
    let refreshExp :=
      match f.refreshTokenExpiresIn with
      | some s => if s = "" then "7d" else s
      | none => "7d"
    let cookieRefreshToken := createRefreshToken userId env refreshExp false
    let transientRefreshToken := createRefreshToken userId env "7d" true
    { response :=
        { status := 200
          body := RespBody.anonOk userId sessionToken transientRefreshToken
          setCookies := [authCookie SESSION_TOKEN_COOKIE sessionToken,
                         authCookie REFRESH_TOKEN_COOKIE cookieRefreshToken]
          location := none }
      events := evs, gen := g }

/-- The `verify` route (server.ts:194-283): look the email up, check the code
(mismatch is a generic 400 with nothing else happening), mint a fresh subject
id for new emails (firing `onNewUser`), fire `onAuthenticate` and
`onEmailVerified`, mint a session token embedding the email plus both refresh
tokens, return them and set cookies. -/
def routeVerify (hooks : Hooks) (env : Env) (g : Nat) : ReqBody → Out
  | ReqBody.invalid =>
    { response := mkResponse 500 (RespBody.jsonError "Internal server error")
      events := [], gen := g }
  | ReqBody.json f =>
    let looked := hooks.getUserIdByEmail f.email
    let isNewUser := ¬ truthy looked
    if ¬ hooks.verifyVerificationCode f.email f.code then
      { response := mkResponse 400 (RespBody.text "Invalid or expired code")
        events := [], gen := g }
    else
      let idg : String × Nat × List Event :=
        if isNewUser then
          (uuidStr g, g + 1,
            if hooks.hasOnNewUser then [Event.newUser (uuidStr g)] else [])
        else (looked.getD "", g, [])
      let userId := idg.1
      let g := idg.2.1
      let evs0 := idg.2.2
      if ¬ truthy (some userId) then
        { response := mkResponse 500 (RespBody.text "Failed to create user")
          events := evs0, gen := g }
      else
        let evs1 := evs0 ++
          (if hooks.hasOnAuthenticate then [Event.authenticate userId f.email] else []) ++
          (if hooks.hasOnEmailVerified then [Event.emailVerified userId f.email] else [])
        let stg := createSessionToken userId env "15m" f.email g
        let sessionToken := stg.1
        let g := stg.2
        let cookieRefreshToken := createRefreshToken userId env "7d" false
        let transientRefreshToken := createRefreshToken userId env "7d" true
        { response :=
            { status := 200
              body := RespBody.verifyOk userId sessionToken transientRefreshToken
              setCookies := [authCookie SESSION_TOKEN_COOKIE sessionToken,
                             authCookie REFRESH_TOKEN_COOKIE cookieRefreshToken]
              location := none }
          events := evs1, gen := g }

/-- The `request-code` route (server.ts:285-317): generate a 6-digit code,
store it and send it through the hooks; a delivery failure is a 500. -/
def routeRequestCode (hooks : Hooks) (env : Env) (g : Nat) : ReqBody → Out
  | ReqBody.invalid =>
    { response := mkResponse 500 (RespBody.jsonError "Internal server error")
      events := [], gen := g }
  | ReqBody.json f =>
    let code := env.randomCode
    let evs := [Event.storeCode f.email code, Event.sendCode f.email code]
    if ¬ hooks.sendVerificationCode f.email code then
      { response := mkResponse 500 (RespBody.text "Failed to send verification code")
        events := evs, gen := g }
    else
      { response := mkResponse 200 RespBody.requestCodeOk
        events := evs, gen := g }

/-- The optional `getUserEmail` hook lookup (`if (hooks.getUserEmail) email =
await hooks.getUserEmail(...)`). -/
def getUserEmailVal (hooks : Hooks) (userId : String) : Option String :=
  match hooks.getUserEmail with
  | some f => f userId
  | none => none

/-- The `refresh` route (server.ts:319-401): take the refresh token from the
`Authorization: Bearer` header or else the cookie, run it through `verifyToken`
(note: no audience check), mint a fresh session token (with the stored email,
if the `getUserEmail` hook exists) plus both refresh tokens, and set cookies
only when the inbound token came from the cookie. -/
def routeRefresh (hooks : Hooks) (env : Env) (req : Request) (g : Nat) : Out :=
  let cookieRefreshToken := getCookie req REFRESH_TOKEN_COOKIE
  let fromHeader : Option Token :=
    match req.authHeader with
    | some (AuthHeader.bearer t) => some t
    | _ => none
  let refreshToken :=
    match fromHeader with
    | some t => some t
    | none => cookieRefreshToken
  match cookieTok refreshToken with
  | none =>
    { response := mkResponse 401 (RespBody.jsonError "No refresh token provided")
      events := [], gen := g }
  | some tok =>
    match verifyToken tok env.authSecret env.now with
    | none =>
      { response := mkResponse 401 (RespBody.jsonError "Invalid refresh token")
        events := [], gen := g }
    | some payload =>
      let userId := payload.userId.getD ""
      let email := getUserEmailVal hooks userId
      let stg := createSessionToken userId env "15m" email g
      let newSessionToken := stg.1
      let g := stg.2
      let newCookieRefreshToken := createRefreshToken userId env "7d" false
      let newTransientRefreshToken := createRefreshToken userId env "7d" true
      let cookies :=
        match cookieTok cookieRefreshToken with
        | some _ => [authCookie SESSION_TOKEN_COOKIE newSessionToken,
                     authCookie REFRESH_TOKEN_COOKIE newCookieRefreshToken]
        | none => []
      { response :=
          { status := 200
            body := RespBody.refreshOk newSessionToken newTransientRefreshToken
            setCookies := cookies
            location := none }
        events := [], gen := g }

/-- The `logout` route (server.ts:403-414): report success and clear both
cookies via `Max-Age=0`. -/
def routeLogout (g : Nat) : Out :=
  { response :=
      { status := 200, body := RespBody.logoutOk
        setCookies := [clearCookie SESSION_TOKEN_COOKIE,
                       clearCookie REFRESH_TOKEN_COOKIE]
        location := none }
    events := [], gen := g }

/-- The `web-code` route (server.ts:416-455): require a `Bearer` credential,
run it through `verifyToken` (note: no audience check), and mint a 5-minute
WEB_AUTH token carrying the subject id and, if present, the email. -/
def routeWebCode (env : Env) (req : Request) (g : Nat) : Out :=
  match req.authHeader with
  | some (AuthHeader.bearer t) =>
    match verifyToken t env.authSecret env.now with
    | none =>
      { response := mkResponse 401 (RespBody.text "Invalid session token")
        events := [], gen := g }
    | some payload =>
      let code : Token := Token.signed
        { userId := payload.userId
          sessionId := none
          email := if truthy payload.email then payload.email else none
          aud := some "WEB_AUTH"
          exp := env.now + env.parseDuration "5m" } env.authSecret
      { response := mkResponse 200 (RespBody.webCodeOk code 300)
        events := [], gen := g }
  | _ =>
    { response := mkResponse 401 (RespBody.text "Unauthorized")
      events := [], gen := g }

/-- `createAuthRouter(config)(request, env)` (server.ts:107-467): path and
method gating, then the route dispatch. -/
def createAuthRouter (hooks : Hooks) (env : Env) (req : Request) (g : Nat) : Out :=
  let segs := pathSegs req.url.path
  if segs.length < 2 ∨ segs.head? ≠ some "auth" then
    { response := mkResponse 404 (RespBody.jsonError "Not Found")
      events := [], gen := g }
  else if req.method ≠ "POST" then
    { response := mkResponse 405 (RespBody.jsonError "Method not allowed")
      events := [], gen := g }
  else
    match String.intercalate "/" segs.tail with
    | "anonymous" => routeAnonymous hooks env g req.body
    | "verify" => routeVerify hooks env g req.body
    | "request-code" => routeRequestCode hooks env g req.body
    | "refresh" => routeRefresh hooks env req g
    | "logout" => routeLogout g
    | "web-code" => routeWebCode env req g
    | _ =>
      { response := mkResponse 404 (RespBody.text "Not found")
        events := [], gen := g }

/-- The web-auth-code redemption guard (server.ts:489-543, up to the cookie
minting): the `code` query parameter, when present and truthy, is verified as a
WEB_AUTH-audience JWT, and its payload must carry a truthy `userId`; every
failure (absent/empty parameter, failed verification, missing subject) falls
through to the normal resolution flow, modelled as `none`. -/
def redeemWebCode (env : Env) (q : Option QVal) : Option TokenPayload :=
  match q with
  | none => none
  | some v =>
    if ¬ qvalTruthy v then none
    else
      match jwtVerifyAud (qvalToken v) env.authSecret "WEB_AUTH" env.now with
      | none => none
      | some p => if truthy p.userId then some p else none

/-- `url.searchParams.get("code")`: the first `code` query parameter. -/
def codeParam (req : Request) : Option QVal :=
  (req.url.query.find? (fun p => p.1 = "code")).map (fun p => p.2)

/-- The variables the session resolver binds before calling the handler:
resolved identity, any newly minted pair, the session token handed to the
handler, the advanced generator and the recorded events. -/
structure Resolved where
  userId : String
  sessionId : String
  newSessionToken : Option Token
  newRefreshToken : Option Token
  currentSessionToken : Token
  gen : Nat
  events : List Event

/-- The anonymous bootstrap (the three identical branches at server.ts:580-589,
592-601 and 604-613): a fresh subject id (also used as session id), a fresh
session+refresh pair, and one `onNewUser` firing if the hook is provided. -/
def anonResolved (hooks : Hooks) (env : Env) (g : Nat) : Resolved :=
  let userId := uuidStr g
  let g := g + 1
  let stg := createSessionToken userId env "15m" none g
  let rt := createRefreshToken userId env "7d" false
  { userId := userId
    sessionId := userId
    newSessionToken := some stg.1
    newRefreshToken := some rt
    currentSessionToken := stg.1
    gen := stg.2
    events := if hooks.hasOnNewUser then [Event.newUser userId] else [] }

/-- The session-resolution state machine (server.ts:545-614): valid SESSION
cookie → pass-through; else valid REFRESH cookie → rotation; else anonymous
bootstrap. -/
def resolveVars (hooks : Hooks) (env : Env) (req : Request) (g : Nat) : Resolved :=
  match cookieTok (getCookie req SESSION_TOKEN_COOKIE) with
  | some st =>
    match verifyToken st env.authSecret env.now with
    | some p =>
      if p.aud = some "SESSION" then
        let sidg : String × Nat :=
          if truthy p.sessionId then (p.sessionId.getD "", g) else (uuidStr g, g + 1)
        { userId := p.userId.getD ""
          sessionId := sidg.1
          newSessionToken := none
          newRefreshToken := none
          currentSessionToken := st
          gen := sidg.2
          events := [] }
      else
        match cookieTok (getCookie req REFRESH_TOKEN_COOKIE) with
        | some rt =>
          match verifyToken rt env.authSecret env.now with
          | some rp =>
            if rp.aud = some "REFRESH" then
              let userId := rp.userId.getD ""
              let sessionId := uuidStr g
              let g := g + 1
              let email := getUserEmailVal hooks userId
              let stg := createSessionToken userId env "15m" email g
              let newRt := createRefreshToken userId env "7d" false
              { userId := userId
                sessionId := sessionId
                newSessionToken := some stg.1
                newRefreshToken := some newRt
                currentSessionToken := stg.1
                gen := stg.2
                events := [] }
            else anonResolved hooks env g
          | none => anonResolved hooks env g
        | none => anonResolved hooks env g
    | none =>
      match cookieTok (getCookie req REFRESH_TOKEN_COOKIE) with
      | some rt =>
        match verifyToken rt env.authSecret env.now with
        | some rp =>
          if rp.aud = some "REFRESH" then
            let userId := rp.userId.getD ""
            let sessionId := uuidStr g
            let g := g + 1
            let email := getUserEmailVal hooks userId
            let stg := createSessionToken userId env "15m" email g
            let newRt := createRefreshToken userId env "7d" false
            { userId := userId
              sessionId := sessionId
              newSessionToken := some stg.1
              newRefreshToken := some newRt
              currentSessionToken := stg.1
              gen := stg.2
              events := [] }
          else anonResolved hooks env g
        | none => anonResolved hooks env g
      | none => anonResolved hooks env g
  | none => anonResolved hooks env g

/-- The optional `Set-Cookie` headers the response finalizer appends for a
newly minted pair (server.ts:618-629). -/
def mintedCookies (st rt : Option Token) : List SetCookie :=
  (match st with
   | some t => [authCookie SESSION_TOKEN_COOKIE t]
   | none => []) ++
  (match rt with
   | some t => [authCookie REFRESH_TOKEN_COOKIE t]
   | none => [])

/-- Resolve the session, invoke the wrapped handler with the resolved identity,
then append cookies for any newly minted pair (server.ts:545-631). -/
def resolveSession (hooks : Hooks) (handler : Handler) (env : Env)
    (req : Request) (g : Nat) : Out :=
  let r := resolveVars hooks env req g
  let hresp := handler req r.userId r.sessionId r.currentSessionToken
  { response :=
      { status := hresp.status
        body := hresp.body
        setCookies := hresp.setCookies ++
          mintedCookies r.newSessionToken r.newRefreshToken
        location := hresp.location }
    events := r.events ++ [Event.handlerCalled r.userId r.sessionId]
    gen := r.gen }

/-- `withAuth(handler, config)(request, env)` (server.ts:469-632): auth routes
go to the router; a redeemable `code` query parameter mints a pair for the
carried subject, sets cookies and redirects with only the `code` parameter
stripped (the `const sessionId = crypto.randomUUID()` at server.ts:506 consumes
a UUID before the session token is minted); otherwise the session resolver
runs. -/
def withAuth (hooks : Hooks) (handler : Handler) (env : Env) (req : Request)
    (g : Nat) : Out :=
  if strStartsWith req.url.path "/auth/" then createAuthRouter hooks env req g
  else
    match redeemWebCode env (codeParam req) with
    | some p =>
      let g := g + 1
      let stg := createSessionToken (p.userId.getD "") env "15m" p.email g
      let newSessionToken := stg.1
      let g := stg.2
      let newRefreshToken := createRefreshToken (p.userId.getD "") env "7d" false
      let redirectUrl : Url :=
        { host := req.url.host
          path := req.url.path
          query := req.url.query.filter (fun q => q.1 ≠ "code") }
      { response :=
          { status := 302
            body := RespBody.empty
            setCookies := [authCookie SESSION_TOKEN_COOKIE newSessionToken,
                           authCookie REFRESH_TOKEN_COOKIE newRefreshToken]
            location := some redirectUrl }
        events := [], gen := g }
    | none => resolveSession hooks handler env req g

/-- Modelled from the spec: the `useTopLevelDomain` configuration option on
`createAuthRouter`/`withAuth` (documented in the README and exercised by
`test.ts`, but whose implementation is not present in the provided source).
When enabled, the cookie `Domain` attribute is scoped to the registrable
top-level domain derived from the request host (`api.example.com` becomes
`.example.com`); the scoping is skipped for bare hostnames (no dot) and for
IP literals, where no `Domain` attribute is set. -/
def cookieDomainFor (useTopLevelDomain : Bool) (host : String) : Option String :=
  if useTopLevelDomain then
    let labels := splitOnChar '.' host.data
    if labels.length < 2 then none
    else if labels.all (fun l => !l.isEmpty && l.all Char.isDigit) then none
    else
      match labels.reverse with
      | tld :: sld :: _ => some ("." ++ String.mk sld ++ "." ++ String.mk tld)
      | _ => none
  else none

/-- Modelled from the spec: a minted auth cookie under the `useTopLevelDomain`
option keeps the fixed `HttpOnly; Secure; SameSite=Strict; Path=/` attributes
and additionally carries the scoped `Domain`. -/
def authCookieWithDomain (useTopLevelDomain : Bool) (host : String)
    (name : String) (value : Token) : SetCookie :=
  { authCookie name value with domain := cookieDomainFor useTopLevelDomain host }

/-- The attributes the spec requires on every minted cookie. -/
def cookieAttrsOk (c : SetCookie) : Bool :=
  c.httpOnly && c.secure && c.sameSite == "Strict"

/-- A concrete environment used by the closed evaluations: secret `"s"`,
current time `1000`, every duration string parsing to `900` seconds. -/
def envW : Env :=
  { authSecret := "s", now := 1000, parseDuration := fun _ => 900
    randomCode := "123456" }

/-- Hooks with no optional hooks installed and empty stores. -/
def hooks0 : Hooks :=
  { getUserIdByEmail := fun _ => none
    verifyVerificationCode := fun _ _ => false
    sendVerificationCode := fun _ _ => true
    getUserEmail := none
    hasOnNewUser := false
    hasOnAuthenticate := false
    hasOnEmailVerified := false }

/-- Hooks with the `onNewUser` hook installed. -/
def hooksNU : Hooks :=
  { hooks0 with hasOnNewUser := true }

/-- A wrapped handler returning a plain `200 OK` with no cookies. -/
def handler0 : Handler := fun _ _ _ _ => mkResponse 200 (RespBody.text "OK")

/-- A well-signed, unexpired SESSION-audience token for subject `alice`. -/
def aliceSession : Token :=
  Token.signed
    { userId := some "alice", sessionId := some "sess-a", email := none
      aud := some "SESSION", exp := 2000 } "s"

/-- A well-signed, unexpired REFRESH-audience token for subject `bob`. -/
def bobRefresh : Token :=
  Token.signed
    { userId := some "bob", sessionId := none, email := none
      aud := some "REFRESH", exp := 2000 } "s"

/-- `POST /auth/refresh` presenting the SESSION token as the bearer
credential. -/
def reqC1 : Request :=
  { method := "POST"
    url := { host := "localhost", path := "/auth/refresh", query := [] }
    authHeader := some (AuthHeader.bearer aliceSession)
    cookieHeader := none
    body := ReqBody.invalid }

/-- C1.  The claim says a SESSION-audience token presented as the bearer
credential to `POST /auth/refresh` yields a 401 and never a rotated token
pair.  On the code it does not: `verifyToken` never receives an expected
audience and the refresh route performs no `aud` check, so the SESSION token
is accepted and a rotated session/refresh pair for the same subject is
returned with status 200. -/
theorem claim_C1_refresh_accepts_session_token :
    (createAuthRouter hooks0 envW reqC1 0).response.status = 200 ∧
    (createAuthRouter hooks0 envW reqC1 0).response.body =
      RespBody.refreshOk
        (Token.signed
          { userId := some "alice", sessionId := some (uuidStr 0), email := none
            aud := some "SESSION", exp := 1900 } "s")
        (Token.signed
          { userId := some "alice", sessionId := none, email := none
            aud := some "REFRESH", exp := 1900 } "s") := by
  constructor <;> rfl

/-- `POST /auth/web-code` presenting a REFRESH token as the bearer
credential. -/
def reqC2 : Request :=
  { method := "POST"
    url := { host := "localhost", path := "/auth/web-code", query := [] }
    authHeader := some (AuthHeader.bearer bobRefresh)
    cookieHeader := none
    body := ReqBody.invalid }

/-- C2.  The claim says `POST /auth/web-code` returns 401 for any non-SESSION
bearer token, e.g. a REFRESH token.  On the code it does not: the route runs
`verifyToken` without any audience check, a REFRESH token passes its shape
check, and a WEB_AUTH code for the refresh token's subject is minted with
status 200. -/
theorem claim_C2_webcode_accepts_refresh_token :
    (createAuthRouter hooks0 envW reqC2 0).response.status = 200 ∧
    (createAuthRouter hooks0 envW reqC2 0).response.body =
      RespBody.webCodeOk
        (Token.signed
          { userId := some "bob", sessionId := none, email := none
            aud := some "WEB_AUTH", exp := 1900 } "s") 300 := by
  constructor <;> rfl

/-- `POST /auth/anonymous` with a missing/non-JSON body (anything that makes
`request.json()` throw). -/
def reqC3 : Request :=
  { method := "POST"
    url := { host := "localhost", path := "/auth/anonymous", query := [] }
    authHeader := none
    cookieHeader := none
    body := ReqBody.invalid }

/-- C3.  The claim says every `POST /auth/anonymous` request succeeds with 200
and that a missing or non-JSON body is not an error.  On the code it is:
`await request.json()` throws on such a body, the router's catch handler turns
it into a 500, and no identity or tokens are minted (the generator does not
advance and no hook fires). -/
theorem claim_C3_anonymous_requires_json_body :
    (createAuthRouter hooksNU envW reqC3 0).response.status = 500 ∧
    (createAuthRouter hooksNU envW reqC3 0).response.body =
      RespBody.jsonError "Internal server error" ∧
    (createAuthRouter hooksNU envW reqC3 0).events = [] ∧
    (createAuthRouter hooksNU envW reqC3 0).gen = 0 := by
  refine ⟨rfl, rfl, rfl, rfl⟩

/-- Router dispatch: a `POST` request to `/auth/verify` reaches the verify
route. -/
theorem router_dispatch_verify (hooks : Hooks) (env : Env) (req : Request)
    (g : Nat) (hm : req.method = "POST") (hp : req.url.path = "/auth/verify") :
    createAuthRouter hooks env req g = routeVerify hooks env g req.body := by
  unfold createAuthRouter
  rw [hp, hm]
  rfl

/-- C8.  A `POST /auth/verify` request whose code the `verifyVerificationCode`
hook rejects gets the generic 400, mints nothing (the UUID generator does not
advance, no cookie is set) and fires none of the lifecycle hooks. -/
theorem claim_C8_verify_bad_code_rejected (hooks : Hooks) (env : Env)
    (req : Request) (g : Nat) (f : Fields)
    (hm : req.method = "POST") (hp : req.url.path = "/auth/verify")
    (hb : req.body = ReqBody.json f)
    (hcode : hooks.verifyVerificationCode f.email f.code = false) :
    createAuthRouter hooks env req g =
      { response := mkResponse 400 (RespBody.text "Invalid or expired code")
        events := [], gen := g } := by
  rw [router_dispatch_verify hooks env req g hm hp, hb]
  simp [routeVerify, hcode]

/-- C8 witness: concrete rejected verification. -/
def hooksV : Hooks :=
  { getUserIdByEmail := fun e => if e = some "existing@x.com" then some "user-42" else none
    verifyVerificationCode := fun _ c => c == some "123456"
    sendVerificationCode := fun _ _ => true
    getUserEmail := none
    hasOnNewUser := true
    hasOnAuthenticate := true
    hasOnEmailVerified := true }

def reqC8w : Request :=
  { method := "POST"
    url := { host := "localhost", path := "/auth/verify", query := [] }
    authHeader := none
    cookieHeader := none
    body := ReqBody.json
      { refreshTokenExpiresIn := none, sessionTokenExpiresIn := none
        email := some "x@x.com", code := some "000000" } }

theorem claim_C8_witness :
    createAuthRouter hooksV envW reqC8w 0 =
      { response := mkResponse 400 (RespBody.text "Invalid or expired code")
        events := [], gen := 0 } := by
  exact claim_C8_verify_bad_code_rejected hooksV envW reqC8w 0
    { refreshTokenExpiresIn := none, sessionTokenExpiresIn := none
      email := some "x@x.com", code := some "000000" } rfl rfl rfl (by decide)

/-- C7.  A `POST /auth/verify` request whose code the hook accepts and whose
email maps to an existing subject id resolves to that existing id — whatever
cookies (prior anonymous identity) the request carried — and the minted
session token embeds the verified email. -/
theorem claim_C7_verify_existing_identity_switch (hooks : Hooks) (env : Env)
    (req : Request) (g : Nat) (f : Fields) (existingId em : String)
    (hm : req.method = "POST") (hp : req.url.path = "/auth/verify")
    (hb : req.body = ReqBody.json f)
    (hem : f.email = some em) (hemne : em ≠ "")
    (hlook : hooks.getUserIdByEmail (some em) = some existingId)
    (hexist : existingId ≠ "")
    (hcode : hooks.verifyVerificationCode (some em) f.code = true) :
    (createAuthRouter hooks env req g).response.status = 200 ∧
    (createAuthRouter hooks env req g).response.body =
      RespBody.verifyOk existingId
        (Token.signed
          { userId := some existingId, sessionId := some (uuidStr g)
            email := some em, aud := some "SESSION"
            exp := env.now + env.parseDuration "15m" } env.authSecret)
        (createRefreshToken existingId env "7d" true) := by
  rw [router_dispatch_verify hooks env req g hm hp, hb]
  simp [routeVerify, hem, hlook, hcode, truthy, hexist, createSessionToken, hemne]

/-- C7 witness: a caller holding an anonymous session cookie verifies
`existing@x.com` and becomes `user-42`. -/
def reqC7w : Request :=
  { method := "POST"
    url := { host := "localhost", path := "/auth/verify", query := [] }
    authHeader := none
    cookieHeader := some [(SESSION_TOKEN_COOKIE, aliceSession)]
    body := ReqBody.json
      { refreshTokenExpiresIn := none, sessionTokenExpiresIn := none
        email := some "existing@x.com", code := some "123456" } }

theorem claim_C7_witness :
    (createAuthRouter hooksV envW reqC7w 0).response.status = 200 ∧
    (createAuthRouter hooksV envW reqC7w 0).response.body =
      RespBody.verifyOk "user-42"
        (Token.signed
          { userId := some "user-42", sessionId := some "uuid-0"
            email := some "existing@x.com", aud := some "SESSION"
            exp := 1900 } "s")
        (Token.signed
          { userId := some "user-42", sessionId := none, email := none
            aud := some "REFRESH", exp := 1900 } "s") := by
  exact claim_C7_verify_existing_identity_switch hooksV envW reqC7w 0
    { refreshTokenExpiresIn := none, sessionTokenExpiresIn := none
      email := some "existing@x.com", code := some "123456" }
    "user-42" "existing@x.com" rfl rfl rfl rfl (by decide) (by decide)
    (by decide) (by decide)

/-- A token that `verifyToken` accepts is in particular a truthy (non-empty)
token string. -/
theorem tokenTruthy_of_verifyToken (t : Token) (s : String) (n : Nat)
    (p : TokenPayload) (h : verifyToken t s n = some p) : tokenTruthy t = true := by
  cases t with
  | signed q sec => rfl
  | malformed str => simp [verifyToken, jwtVerify] at h

/-- Shape facts `verifyToken` guarantees about an accepted payload: the subject
id is truthy, and outside the REFRESH branch so is the session id. -/
theorem verifyToken_fields (t : Token) (s : String) (n : Nat) (p : TokenPayload)
    (h : verifyToken t s n = some p) :
    truthy p.userId = true ∧ (p.aud = some "REFRESH" ∨ truthy p.sessionId = true) := by
  unfold verifyToken at h
  cases hv : jwtVerify t s n with
  | none => rw [hv] at h; exact Option.noConfusion h
  | some q =>
    rw [hv] at h
    dsimp only at h
    by_cases ha : q.aud = some "REFRESH"
    · rw [if_pos ha] at h
      by_cases hu : truthy q.userId = true
      · rw [if_pos hu] at h
        cases Option.some.inj h
        exact ⟨hu, Or.inl ha⟩
      · rw [if_neg hu] at h; exact Option.noConfusion h
    · rw [if_neg ha] at h
      by_cases hus : truthy q.userId = true ∧ truthy q.sessionId = true
      · rw [if_pos hus] at h
        cases Option.some.inj h
        exact ⟨hus.1, Or.inr hus.2⟩
      · rw [if_neg hus] at h; exact Option.noConfusion h

/-- C5 (amended).  A non-auth-route request whose URL carries no redeemable
web-auth code and whose session cookie verifies as a SESSION-audience token is
passed through: the handler runs with the token's subject id, nothing is
minted (the generator does not advance) and the response is exactly the
handler's response — no `Set-Cookie` is appended. -/
theorem claim_C5_valid_session_passthrough (hooks : Hooks) (handler : Handler)
    (env : Env) (req : Request) (g : Nat) (t : Token) (p : TokenPayload)
    (hpath : strStartsWith req.url.path "/auth/" = false)
    (hcode : redeemWebCode env (codeParam req) = none)
    (hcookie : getCookie req SESSION_TOKEN_COOKIE = some t)
    (hverify : verifyToken t env.authSecret env.now = some p)
    (haud : p.aud = some "SESSION") :
    withAuth hooks handler env req g =
      { response := handler req (p.userId.getD "") (p.sessionId.getD "") t
        events := [Event.handlerCalled (p.userId.getD "") (p.sessionId.getD "")]
        gen := g } := by
  have htt := tokenTruthy_of_verifyToken t env.authSecret env.now p hverify
  have hsid : truthy p.sessionId = true := by
    rcases (verifyToken_fields t env.authSecret env.now p hverify).2 with hr | hs
    · rw [haud] at hr; exact absurd hr (by decide)
    · exact hs
  unfold withAuth
  rw [hpath]
  simp only [Bool.false_eq_true, if_false]
  rw [hcode]
  unfold resolveSession resolveVars
  rw [hcookie]
  simp only [cookieTok, htt, if_pos]
  rw [hverify]
  simp only [haud, if_pos, hsid, mintedCookies, List.append_nil]
  simp only [List.nil_append]

/-- C4 (amended).  A non-auth-route request with no redeemable web-auth code in
its URL and carrying neither auth cookie gets a fresh anonymous bootstrap: the
handler runs with a freshly generated subject id, both a new session cookie and
a new refresh cookie are appended, and (the hook being provided) `onNewUser`
fires exactly once with that subject id. -/
theorem claim_C4_cookieless_anonymous_bootstrap (hooks : Hooks)
    (handler : Handler) (env : Env) (req : Request) (g : Nat)
    (hpath : strStartsWith req.url.path "/auth/" = false)
    (hcode : redeemWebCode env (codeParam req) = none)
    (hsc : getCookie req SESSION_TOKEN_COOKIE = none)
    (hrc : getCookie req REFRESH_TOKEN_COOKIE = none)
    (hnu : hooks.hasOnNewUser = true) :
    withAuth hooks handler env req g =
      let uid := uuidStr g
      let st := (createSessionToken uid env "15m" none (g + 1)).1
      let rt := createRefreshToken uid env "7d" false
      let hresp := handler req uid uid st
      { response :=
          { status := hresp.status, body := hresp.body
            setCookies := hresp.setCookies ++
              [authCookie SESSION_TOKEN_COOKIE st,
               authCookie REFRESH_TOKEN_COOKIE rt]
            location := hresp.location }
        events := [Event.newUser uid, Event.handlerCalled uid uid]
        gen := g + 2 } := by
  unfold withAuth
  rw [hpath]
  simp only [Bool.false_eq_true, if_false]
  rw [hcode]
  unfold resolveSession resolveVars
  rw [hsc]
  simp only [cookieTok]
  unfold anonResolved
  rw [hnu]
  simp only [mintedCookies, if_pos, List.cons_append, List.nil_append]
  rfl

/-- C6 (amended).  A non-auth-route request with no redeemable web-auth code,
a present-but-invalid (or non-SESSION) session cookie and a refresh cookie
verifying as a REFRESH-audience token is rotated: exactly one new
session+refresh pair is minted for the refresh token's subject id and appended
as cookies, the handler runs with that same subject id, and `onNewUser` does
not fire (the event log holds only the handler call). -/
theorem claim_C6_rotation_preserves_subject (hooks : Hooks) (handler : Handler)
    (env : Env) (req : Request) (g : Nat) (ts tr : Token) (p : TokenPayload)
    (hpath : strStartsWith req.url.path "/auth/" = false)
    (hcode : redeemWebCode env (codeParam req) = none)
    (hsc : getCookie req SESSION_TOKEN_COOKIE = some ts)
    (hts : tokenTruthy ts = true)
    (hbad : (verifyToken ts env.authSecret env.now).all
      (fun q => q.aud ≠ some "SESSION") = true)
    (hrc : getCookie req REFRESH_TOKEN_COOKIE = some tr)
    (hv : verifyToken tr env.authSecret env.now = some p)
    (haud : p.aud = some "REFRESH") :
    withAuth hooks handler env req g =
      let uid := p.userId.getD ""
      let sid := uuidStr g
      let st := (createSessionToken uid env "15m" (getUserEmailVal hooks uid) (g + 1)).1
      let rt := createRefreshToken uid env "7d" false
      let hresp := handler req uid sid st
      { response :=
          { status := hresp.status, body := hresp.body
            setCookies := hresp.setCookies ++
              [authCookie SESSION_TOKEN_COOKIE st,
               authCookie REFRESH_TOKEN_COOKIE rt]
            location := hresp.location }
        events := [Event.handlerCalled uid sid]
        gen := g + 2 } := by
  have htr := tokenTruthy_of_verifyToken tr env.authSecret env.now p hv
  unfold withAuth
  rw [hpath]
  simp only [Bool.false_eq_true, if_false]
  rw [hcode]
  unfold resolveSession resolveVars
  rw [hsc]
  simp only [cookieTok, hts, if_pos]
  cases hvs : verifyToken ts env.authSecret env.now with
  | none =>
    rw [hrc]
    simp only [htr, if_pos]
    rw [hv]
    simp only [haud, if_pos, mintedCookies, List.cons_append, List.nil_append]
    rfl
  | some q =>
    have hqa : ¬ q.aud = some "SESSION" := by
      rw [hvs] at hbad
      simpa using hbad
    simp only [hqa, if_neg, if_false]
    rw [hrc]
    simp only [htr, if_pos]
    rw [hv]
    simp only [haud, if_pos, mintedCookies, List.cons_append, List.nil_append]
    rfl

/-- C9.  A non-auth-route request whose `code` query parameter redeems as a
WEB_AUTH token is answered with a 302 redirect to the same URL with only the
`code` parameter removed (host, path and all other query parameters
preserved), and the response sets a freshly minted session cookie (embedding
the code's email, when it carried a truthy one) and refresh cookie for the
subject id carried by the code. -/
theorem claim_C9_webcode_redemption_redirect (hooks : Hooks) (handler : Handler)
    (env : Env) (req : Request) (g : Nat) (p : TokenPayload)
    (hpath : strStartsWith req.url.path "/auth/" = false)
    (hred : redeemWebCode env (codeParam req) = some p) :
    withAuth hooks handler env req g =
      { response :=
          { status := 302
            body := RespBody.empty
            setCookies :=
              [authCookie SESSION_TOKEN_COOKIE (Token.signed
                { userId := some (p.userId.getD "")
                  sessionId := some (uuidStr (g + 1))
                  email := if truthy p.email then p.email else none
                  aud := some "SESSION"
                  exp := env.now + env.parseDuration "15m" } env.authSecret),
               authCookie REFRESH_TOKEN_COOKIE
                 (createRefreshToken (p.userId.getD "") env "7d" false)]
            location := some
              { host := req.url.host
                path := req.url.path
                query := req.url.query.filter (fun q => q.1 ≠ "code") } }
        events := []
        gen := g + 2 } := by
  unfold withAuth
  rw [hpath]
  simp only [Bool.false_eq_true, if_false]
  rw [hred]
  simp only [createSessionToken]

/-- A concrete WEB_AUTH cross-device code for subject `mobile-1`. -/
def webTokMobile : Token :=
  Token.signed
    { userId := some "mobile-1", sessionId := none, email := some "m@x.com"
      aud := some "WEB_AUTH", exp := 2000 } "s"

/-- C9 witness request: a redemption on `/a/b?x=1&code=...`. -/
def reqC9w : Request :=
  { method := "GET"
    url := { host := "localhost", path := "/a/b"
             query := [("x", QVal.str "1"), ("code", QVal.tok webTokMobile)] }
    authHeader := none
    cookieHeader := none
    body := ReqBody.invalid }

theorem claim_C9_witness :
    (withAuth hooks0 handler0 envW reqC9w 0).response.status = 302 ∧
    (withAuth hooks0 handler0 envW reqC9w 0).response.location =
      some { host := "localhost", path := "/a/b", query := [("x", QVal.str "1")] } ∧
    (withAuth hooks0 handler0 envW reqC9w 0).response.setCookies =
      [authCookie SESSION_TOKEN_COOKIE (Token.signed
        { userId := some "mobile-1", sessionId := some "uuid-1"
          email := some "m@x.com", aud := some "SESSION", exp := 1900 } "s"),
       authCookie REFRESH_TOKEN_COOKIE (Token.signed
        { userId := some "mobile-1", sessionId := none, email := none
          aud := some "REFRESH", exp := 1900 } "s")] := by
  have h := claim_C9_webcode_redemption_redirect hooks0 handler0 envW reqC9w 0
    { userId := some "mobile-1", sessionId := none, email := some "m@x.com"
      aud := some "WEB_AUTH", exp := 2000 } rfl rfl
  rw [h]
  refine ⟨rfl, rfl, rfl⟩

/-- C4 counterexample request: cookie-less, non-auth route, but carrying a
redeemable web-auth code in its URL. -/
def reqC4x : Request :=
  { method := "GET"
    url := { host := "localhost", path := "/x"
             query := [("code", QVal.tok webTokMobile)] }
    authHeader := none
    cookieHeader := none
    body := ReqBody.invalid }

/-- C4 counterexample.  This request is a non-auth-route request carrying
neither a session cookie nor a refresh cookie (and the `onNewUser` hook is
provided), yet the wrapped handler is never invoked and `onNewUser` never
fires — the event log is empty — because the web-auth-code redemption answers
with a 302 first.  The claim's universally quantified conclusion fails here. -/
theorem claim_C4_counterexample :
    strStartsWith reqC4x.url.path "/auth/" = false ∧
    getCookie reqC4x SESSION_TOKEN_COOKIE = none ∧
    getCookie reqC4x REFRESH_TOKEN_COOKIE = none ∧
    hooksNU.hasOnNewUser = true ∧
    (withAuth hooksNU handler0 envW reqC4x 0).events = [] ∧
    (withAuth hooksNU handler0 envW reqC4x 0).response.status = 302 := by
  decide

/-- C4 witness request: cookie-less, non-auth route, no code parameter. -/
def reqC4w : Request :=
  { method := "GET"
    url := { host := "localhost", path := "/x", query := [] }
    authHeader := none
    cookieHeader := none
    body := ReqBody.invalid }

theorem claim_C4_witness :
    (withAuth hooksNU handler0 envW reqC4w 0).events =
      [Event.newUser "uuid-0", Event.handlerCalled "uuid-0" "uuid-0"] ∧
    (withAuth hooksNU handler0 envW reqC4w 0).response.setCookies =
      [authCookie SESSION_TOKEN_COOKIE (Token.signed
        { userId := some "uuid-0", sessionId := some "uuid-1", email := none
          aud := some "SESSION", exp := 1900 } "s"),
       authCookie REFRESH_TOKEN_COOKIE (Token.signed
        { userId := some "uuid-0", sessionId := none, email := none
          aud := some "REFRESH", exp := 1900 } "s")] := by
  have h := claim_C4_cookieless_anonymous_bootstrap hooksNU handler0 envW reqC4w 0
    rfl rfl rfl rfl rfl
  rw [h]
  refine ⟨rfl, rfl⟩

/-- A valid SESSION payload/token for subject `carol`. -/
def carolPayload : TokenPayload :=
  { userId := some "carol", sessionId := some "sess-c", email := none
    aud := some "SESSION", exp := 2000 }

def carolSession : Token := Token.signed carolPayload "s"

/-- C5 counterexample request: a valid session cookie together with a
redeemable web-auth code in the URL. -/
def reqC5x : Request :=
  { method := "GET"
    url := { host := "localhost", path := "/x"
             query := [("code", QVal.tok webTokMobile)] }
    authHeader := none
    cookieHeader := some [(SESSION_TOKEN_COOKIE, carolSession)]
    body := ReqBody.invalid }

/-- C5 counterexample.  This non-auth-route request's session cookie verifies
as a SESSION-audience token, yet the wrapped handler is never invoked (empty
event log) and the response does gain `Set-Cookie` headers: the web-auth-code
redemption runs first and mints a fresh pair.  The claim's universally
quantified conclusion fails here. -/
theorem claim_C5_counterexample :
    strStartsWith reqC5x.url.path "/auth/" = false ∧
    getCookie reqC5x SESSION_TOKEN_COOKIE = some carolSession ∧
    verifyToken carolSession envW.authSecret envW.now = some carolPayload ∧
    carolPayload.aud = some "SESSION" ∧
    (withAuth hooks0 handler0 envW reqC5x 0).events = [] ∧
    (withAuth hooks0 handler0 envW reqC5x 0).response.setCookies ≠ [] := by
  decide

/-- C5 witness request: the same valid session cookie with no code
parameter. -/
def reqC5w : Request :=
  { method := "GET"
    url := { host := "localhost", path := "/x", query := [] }
    authHeader := none
    cookieHeader := some [(SESSION_TOKEN_COOKIE, carolSession)]
    body := ReqBody.invalid }

theorem claim_C5_witness :
    (withAuth hooks0 handler0 envW reqC5w 0).events =
      [Event.handlerCalled "carol" "sess-c"] ∧
    (withAuth hooks0 handler0 envW reqC5w 0).response.setCookies = [] ∧
    (withAuth hooks0 handler0 envW reqC5w 0).gen = 0 := by
  have h := claim_C5_valid_session_passthrough hooks0 handler0 envW reqC5w 0
    carolSession carolPayload rfl rfl rfl (by decide) rfl
  rw [h]
  refine ⟨rfl, rfl, rfl⟩

/-- A valid REFRESH payload/token for subject `dave`. -/
def davePayload : TokenPayload :=
  { userId := some "dave", sessionId := none, email := none
    aud := some "REFRESH", exp := 2000 }

def daveRefresh : Token := Token.signed davePayload "s"

/-- C6 counterexample request: an invalid session cookie, a valid refresh
cookie, and a redeemable web-auth code in the URL. -/
def reqC6x : Request :=
  { method := "GET"
    url := { host := "localhost", path := "/x"
             query := [("code", QVal.tok webTokMobile)] }
    authHeader := none
    cookieHeader := some [(SESSION_TOKEN_COOKIE, Token.malformed "xx"),
                          (REFRESH_TOKEN_COOKIE, daveRefresh)]
    body := ReqBody.invalid }

/-- C6 counterexample.  This non-auth-route request has an invalid session
cookie and a refresh cookie verifying as a REFRESH-audience token for `dave`,
yet the wrapped handler is never invoked with `dave` (the event log is empty)
and the response is a 302 minted for the code's subject instead: web-auth-code
redemption preempts rotation.  The claim's universally quantified conclusion
fails here. -/
theorem claim_C6_counterexample :
    strStartsWith reqC6x.url.path "/auth/" = false ∧
    getCookie reqC6x SESSION_TOKEN_COOKIE = some (Token.malformed "xx") ∧
    verifyToken (Token.malformed "xx") envW.authSecret envW.now = none ∧
    getCookie reqC6x REFRESH_TOKEN_COOKIE = some daveRefresh ∧
    verifyToken daveRefresh envW.authSecret envW.now = some davePayload ∧
    davePayload.aud = some "REFRESH" ∧
    (withAuth hooksNU handler0 envW reqC6x 0).events = [] ∧
    (withAuth hooksNU handler0 envW reqC6x 0).response.status = 302 := by
  decide

/-- C6 witness request: invalid session cookie plus valid refresh cookie, no
code parameter. -/
def reqC6w : Request :=
  { method := "GET"
    url := { host := "localhost", path := "/x", query := [] }
    authHeader := none
    cookieHeader := some [(SESSION_TOKEN_COOKIE, Token.malformed "xx"),
                          (REFRESH_TOKEN_COOKIE, daveRefresh)]
    body := ReqBody.invalid }

theorem claim_C6_witness :
    (withAuth hooksNU handler0 envW reqC6w 0).events =
      [Event.handlerCalled "dave" "uuid-0"] ∧
    (withAuth hooksNU handler0 envW reqC6w 0).response.setCookies =
      [authCookie SESSION_TOKEN_COOKIE (Token.signed
        { userId := some "dave", sessionId := some "uuid-1", email := none
          aud := some "SESSION", exp := 1900 } "s"),
       authCookie REFRESH_TOKEN_COOKIE (Token.signed
        { userId := some "dave", sessionId := none, email := none
          aud := some "REFRESH", exp := 1900 } "s")] := by
  have h := claim_C6_rotation_preserves_subject hooksNU handler0 envW reqC6w 0
    (Token.malformed "xx") daveRefresh davePayload rfl rfl rfl (by decide)
    (by decide) rfl rfl rfl
  rw [h]
  refine ⟨rfl, rfl⟩

theorem cookieAttrsOk_authCookie (n : String) (v : Token) :
    cookieAttrsOk (authCookie n v) = true := rfl

theorem cookieAttrsOk_clearCookie (n : String) :
    cookieAttrsOk (clearCookie n) = true := rfl

theorem mintedCookies_ok (st rt : Option Token) :
    ((mintedCookies st rt).all cookieAttrsOk) = true := by
  cases st <;> cases rt <;> rfl


theorem routeAnonymous_cookies_ok (hooks : Hooks) (env : Env) (g : Nat)
    (b : ReqBody) :
    ((routeAnonymous hooks env g b).response.setCookies.all cookieAttrsOk) = true := by
  cases b <;> rfl

theorem routeVerify_cookies_ok (hooks : Hooks) (env : Env) (g : Nat)
    (b : ReqBody) :
    ((routeVerify hooks env g b).response.setCookies.all cookieAttrsOk) = true := by
  cases b with
  | invalid => rfl
  | json f =>
    unfold routeVerify
    dsimp only
    repeat' split
    all_goals rfl

theorem routeRequestCode_cookies_ok (hooks : Hooks) (env : Env) (g : Nat)
    (b : ReqBody) :
    ((routeRequestCode hooks env g b).response.setCookies.all cookieAttrsOk) = true := by
  cases b with
  | invalid => rfl
  | json f =>
    unfold routeRequestCode
    dsimp only
    repeat' split
    all_goals rfl

theorem routeRefresh_cookies_ok (hooks : Hooks) (env : Env) (req : Request)
    (g : Nat) :
    ((routeRefresh hooks env req g).response.setCookies.all cookieAttrsOk) = true := by
  unfold routeRefresh
  dsimp only
  repeat' split
  all_goals rfl

theorem routeWebCode_cookies_ok (env : Env) (req : Request) (g : Nat) :
    ((routeWebCode env req g).response.setCookies.all cookieAttrsOk) = true := by
  unfold routeWebCode
  dsimp only
  repeat' split
  all_goals rfl

/-- Every cookie the auth router sets carries the fixed
`HttpOnly; Secure; SameSite=Strict` attributes, on every request. -/
theorem router_cookies_ok (hooks : Hooks) (env : Env) (req : Request) (g : Nat) :
    ((createAuthRouter hooks env req g).response.setCookies.all cookieAttrsOk) = true := by
  unfold createAuthRouter
  dsimp only
  repeat' split
  all_goals first
    | rfl
    | exact routeAnonymous_cookies_ok hooks env g req.body
    | exact routeVerify_cookies_ok hooks env g req.body
    | exact routeRequestCode_cookies_ok hooks env g req.body
    | exact routeRefresh_cookies_ok hooks env req g
    | exact routeWebCode_cookies_ok env req g

/-- C10.  (a) For every request, when the wrapped handler itself sets no
cookie, every `Set-Cookie` the middleware's response carries (router routes,
web-auth-code redemption and the session-resolver finalizer alike) has
`HttpOnly`, `Secure` and `SameSite=Strict`.  (b) The spec-modelled
`useTopLevelDomain` scoping sets `Domain` to the registrable top-level domain
(`api.example.com` gives `.example.com`), skips bare hostnames (`localhost`)
and IP literals (`127.0.0.1`), sets no `Domain` at all when the option is off,
and leaves the fixed attributes intact. -/
theorem claim_C10_cookie_attributes_and_domain_scoping (hooks : Hooks)
    (handler : Handler) (env : Env) (req : Request) (g : Nat)
    (hh : ∀ r u s t, (handler r u s t).setCookies = []) :
    ((withAuth hooks handler env req g).response.setCookies.all cookieAttrsOk) = true ∧
    cookieDomainFor true "api.example.com" = some ".example.com" ∧
    cookieDomainFor true "localhost" = none ∧
    cookieDomainFor true "127.0.0.1" = none ∧
    (∀ h, cookieDomainFor false h = none) ∧
    (∀ h n v, (authCookieWithDomain true h n v).httpOnly = true ∧
      (authCookieWithDomain true h n v).secure = true ∧
      (authCookieWithDomain true h n v).sameSite = "Strict" ∧
      (authCookieWithDomain true h n v).domain = cookieDomainFor true h) := by
  refine ⟨?_, by decide, by decide, by decide, fun h => rfl,
    fun h n v => ⟨rfl, rfl, rfl, rfl⟩⟩
  unfold withAuth
  split
  · exact router_cookies_ok hooks env req g
  · split
    · rfl
    · unfold resolveSession
      simp only [hh, List.nil_append, mintedCookies_ok]

/-- C10 witness request: an anonymous bootstrap through the middleware on a
subdomain host. -/
def reqC10w : Request :=
  { method := "GET"
    url := { host := "api.example.com", path := "/x", query := [] }
    authHeader := none
    cookieHeader := none
    body := ReqBody.invalid }

theorem claim_C10_witness :
    ((withAuth hooks0 handler0 envW reqC10w 0).response.setCookies.all
      cookieAttrsOk) = true ∧
    cookieDomainFor true "api.example.com" = some ".example.com" := by
  have h := claim_C10_cookie_attributes_and_domain_scoping hooks0 handler0 envW
    reqC10w 0 (fun _ _ _ _ => rfl)
  exact ⟨h.1, h.2.1⟩
